import Mathlib

/-!
# Verification of the cortexd monitoring core

Shallow embedding of the concurrency/monitoring core of the `cortexd`
daemon (`src/daemon`), covering:

* the health-check scheduler (`SystemMonitor::run_checks`, `monitor_loop`),
* the threshold evaluator (`SystemMonitor::check_thresholds`),
* the alert-enrichment submission and background task
  (`SystemMonitor::create_smart_alert`, its AI-thread lambda and `DoneGuard`),
* the IPC request parser (`Request::parse` in `src/ipc/protocol.cpp`),
* the rate limiter (modelled from the spec; its header is not among the
  provided sources, only its unit tests are).

Machine doubles are embedded as rationals (`ℚ`), C++ `long`/`int` as `Int`.
External collaborators (collectors, the alert store, the LLM client) are
modelled as explicit inputs, mirroring §6 of the specification.
-/

namespace Cortexd

/-- Alert severity levels (`common.h`, `enum class AlertSeverity`). -/
inductive AlertSeverity where
  | INFO
  | WARNING
  | ERROR
  | CRITICAL
deriving DecidableEq, Repr

/-- Alert types (`common.h`, `enum class AlertType`), restricted to the
constructors the monitoring core emits. -/
inductive AlertType where
  | SYSTEM
  | APT_UPDATES
  | SECURITY_UPDATE
  | DISK_USAGE
  | MEMORY_USAGE
  | CVE_FOUND
  | DEPENDENCY
  | LLM_ERROR
  | DAEMON_STATUS
  | AI_ANALYSIS
deriving DecidableEq, Repr

/-- `HealthSnapshot` from `common.h`: timestamps as epoch numbers, doubles
as rationals, C++ `int` fields as `Int`. -/
structure HealthSnapshot where
  timestamp : Int := 0
  cpu_usage_percent : ℚ := 0
  memory_usage_percent : ℚ := 0
  memory_used_mb : ℚ := 0
  memory_total_mb : ℚ := 0
  disk_usage_percent : ℚ := 0
  disk_used_gb : ℚ := 0
  disk_total_gb : ℚ := 0
  pending_updates : Int := 0
  security_updates : Int := 0
  active_alerts : Int := 0
  critical_alerts : Int := 0
deriving DecidableEq, Repr

/-- `CpuCounters` from `system_monitor.h` (C++ `long` fields). -/
structure CpuCounters where
  user : Int := 0
  nice : Int := 0
  system : Int := 0
  idle : Int := 0
  iowait : Int := 0
deriving DecidableEq, Repr

/-- `CpuCounters::total()`. -/
def CpuCounters.total (c : CpuCounters) : Int :=
  c.user + c.nice + c.system + c.idle + c.iowait

/-- `CpuCounters::used()`. -/
def CpuCounters.used (c : CpuCounters) : Int :=
  c.user + c.nice + c.system

/-- The configuration fields of `DaemonConfig` consumed by the monitoring
core (thresholds are fractions, e.g. `0.95`). -/
structure DaemonConfig where
  disk_warn_threshold : ℚ
  disk_crit_threshold : ℚ
  mem_warn_threshold : ℚ
  mem_crit_threshold : ℚ
  enable_apt_monitor : Bool
deriving DecidableEq, Repr

/-- A pending package update as the core sees it: `to_string()` output plus
the security flag (the `PackageUpdate` type lives in the external apt
monitor, so its rendering is kept abstract as a stored string). -/
structure PackageUpdate where
  display : String
  is_security : Bool
deriving DecidableEq, Repr

/-- `PackageUpdate::to_string()` (external; renders the stored display). -/
def PackageUpdate.to_string (u : PackageUpdate) : String := u.display

/-- One call to `create_smart_alert` as produced by `check_thresholds`:
the arguments of the alert request. -/
structure AlertRequest where
  severity : AlertSeverity
  type : AlertType
  title : String
  message : String
  ai_context : String
  metadata : List (String × String)
deriving DecidableEq, Repr

/-- C++ `static_cast<int>` on a double: truncation toward zero. -/
def cppTruncInt (q : ℚ) : Int :=
  if q < 0 then ⌈q⌉ else ⌊q⌋

/-- C++ `std::to_string(double)`: fixed 6-decimal rendering (`%f`);
rounding of the scaled value is to nearest, half away from zero. -/
def cppDoubleToString (q : ℚ) : String :=
  let sgn := if q < 0 then "-" else ""
  let a : ℚ := |q|
  let scaled : Int := ⌊a * 1000000 + 1/2⌋
  let ip := scaled / 1000000
  let fp := (scaled % 1000000).toNat
  let fs := toString fp
  sgn ++ toString ip ++ "." ++ String.mk (List.replicate (6 - fs.length) '0') ++ fs

/-- The update-list accumulation loop in `check_thresholds` (lines
410–416): walk the cached updates, appending `"- <to_string>\n"` for each
security update while fewer than 5 have been listed; returns the
accumulated string and the final `count`. -/
def updateListLoop : List PackageUpdate → Nat → String × Nat
  | [], count => ("", count)
  | u :: rest, count =>
    if u.is_security && decide (count < 5) then
      let r := updateListLoop rest (count + 1)
      ("- " ++ u.to_string ++ "\n" ++ r.1, r.2)
    else
      updateListLoop rest count

/-- The full `update_list` string of the security-update branch of
`check_thresholds` (lines 408–419), including the `"... and N more"`
trailer emitted when `count < snapshot.security_updates`. -/
def securityUpdateList (cached : List PackageUpdate) (nSecurity : Int) : String :=
  let r := updateListLoop cached 0
  if (r.2 : Int) < nSecurity then
    r.1 ++ "... and " ++ toString (nSecurity - (r.2 : Int)) ++ " more\n"
  else
    r.1

/-- `SystemMonitor::check_thresholds` (system_monitor.cpp lines 332–432),
as the ordered list of `create_smart_alert` calls it performs.
`hasAlertManager` models the `if (!alert_manager_) return;` guard;
`cached` is `apt_monitor_->get_cached_updates()`. -/
def check_thresholds (hasAlertManager : Bool) (cfg : DaemonConfig)
    (cached : List PackageUpdate) (s : HealthSnapshot) : List AlertRequest :=
  if !hasAlertManager then [] else
  let diskAlerts : List AlertRequest :=
    let disk_pct := s.disk_usage_percent / 100
    if cfg.disk_crit_threshold ≤ disk_pct then
      [{ severity := AlertSeverity.CRITICAL
         type := AlertType.DISK_USAGE
         title := "Critical disk usage"
         message := "Disk usage is at " ++ toString (cppTruncInt s.disk_usage_percent) ++
                    "% on root filesystem"
         ai_context := "Disk usage: " ++ toString (cppTruncInt s.disk_usage_percent) ++
                       "%, Used: " ++ toString (cppTruncInt s.disk_used_gb) ++
                       "GB / " ++ toString (cppTruncInt s.disk_total_gb) ++ "GB total"
         metadata := [("usage_percent", cppDoubleToString s.disk_usage_percent),
                      ("used_gb", cppDoubleToString s.disk_used_gb),
                      ("total_gb", cppDoubleToString s.disk_total_gb)] }]
    else if cfg.disk_warn_threshold ≤ disk_pct then
      [{ severity := AlertSeverity.WARNING
         type := AlertType.DISK_USAGE
         title := "High disk usage"
         message := "Disk usage is at " ++ toString (cppTruncInt s.disk_usage_percent) ++
                    "% on root filesystem"
         ai_context := "Disk usage: " ++ toString (cppTruncInt s.disk_usage_percent) ++
                       "%, Used: " ++ toString (cppTruncInt s.disk_used_gb) ++
                       "GB / " ++ toString (cppTruncInt s.disk_total_gb) ++ "GB total"
         metadata := [("usage_percent", cppDoubleToString s.disk_usage_percent),
                      ("used_gb", cppDoubleToString s.disk_used_gb),
                      ("total_gb", cppDoubleToString s.disk_total_gb)] }]
    else []
  let memAlerts : List AlertRequest :=
    let mem_pct := s.memory_usage_percent / 100
    if cfg.mem_crit_threshold ≤ mem_pct then
      [{ severity := AlertSeverity.CRITICAL
         type := AlertType.MEMORY_USAGE
         title := "Critical memory usage"
         message := "Memory usage is at " ++ toString (cppTruncInt s.memory_usage_percent) ++ "%"
         ai_context := "Memory usage: " ++ toString (cppTruncInt s.memory_usage_percent) ++
                       "%, Used: " ++ toString (cppTruncInt s.memory_used_mb) ++
                       "MB / " ++ toString (cppTruncInt s.memory_total_mb) ++ "MB total"
         metadata := [("usage_percent", cppDoubleToString s.memory_usage_percent),
                      ("used_mb", cppDoubleToString s.memory_used_mb),
                      ("total_mb", cppDoubleToString s.memory_total_mb)] }]
    else if cfg.mem_warn_threshold ≤ mem_pct then
      [{ severity := AlertSeverity.WARNING
         type := AlertType.MEMORY_USAGE
         title := "High memory usage"
         message := "Memory usage is at " ++ toString (cppTruncInt s.memory_usage_percent) ++ "%"
         ai_context := "Memory usage: " ++ toString (cppTruncInt s.memory_usage_percent) ++
                       "%, Used: " ++ toString (cppTruncInt s.memory_used_mb) ++
                       "MB / " ++ toString (cppTruncInt s.memory_total_mb) ++ "MB total"
         metadata := [("usage_percent", cppDoubleToString s.memory_usage_percent),
                      ("used_mb", cppDoubleToString s.memory_used_mb),
                      ("total_mb", cppDoubleToString s.memory_total_mb)] }]
    else []
  let secAlerts : List AlertRequest :=
    if 0 < s.security_updates then
      [{ severity := AlertSeverity.WARNING
         type := AlertType.SECURITY_UPDATE
         title := "Security updates available"
         message := toString s.security_updates ++ " security update(s) available"
         ai_context := toString s.security_updates ++ " security updates available:\n" ++
                       securityUpdateList cached s.security_updates
         metadata := [("count", toString s.security_updates)] }]
    else []
  diskAlerts ++ memAlerts ++ secAlerts

/-- The alerts of one evaluation that concern a given alert type. -/
def alertsFor (t : AlertType) (l : List AlertRequest) : List AlertRequest :=
  l.filter fun a => decide (a.type = t)

/-! ## The health-check run (`SystemMonitor::run_checks`) -/

/-- Memory collector result (`MemoryMonitor::get_stats`, external). -/
structure MemStats where
  usage_percent : ℚ
  used_mb : ℚ
  total_mb : ℚ
deriving DecidableEq, Repr

/-- Disk collector result (`DiskMonitor::get_root_stats`, external). -/
structure DiskStats where
  usage_percent : ℚ
  used_gb : ℚ
  total_gb : ℚ
deriving DecidableEq, Repr

/-- The scheduler-owned state mutated by `run_checks`: the published
snapshot, the CPU-delta bookkeeping (`prev_cpu_counters_`,
`cpu_counters_initialized_`) and the apt cycle counter (`apt_counter_`). -/
structure MonitorState where
  snapshot : HealthSnapshot
  cpuPrev : CpuCounters
  cpuInit : Bool
  aptCounter : Int
deriving DecidableEq, Repr

/-- One run's view of the external world: collector outcomes (`none`
models the collector throwing), the `/proc/stat` reads (`none` models the
CPU sampling throwing; the second read is the one-time bootstrap
re-sample), the apt check outcome, the cached update list, and the alert
manager presence and counts. -/
structure RunChecksEnv where
  now : Int
  mem : Option MemStats
  disk : Option DiskStats
  cpuReads : Option (CpuCounters × CpuCounters)
  aptOk : Bool
  pending : Int
  security : Int
  cachedUpdates : List PackageUpdate
  hasAlertManager : Bool
  active : Int
  critical : Int
deriving Repr

/-- The CPU usage formula of `run_checks` (lines 262–268): the delta-based
percentage between a previous and a current counter sample, `0` when the
total delta is not positive. -/
def cpuUsageOf (p c : CpuCounters) : ℚ :=
  let delta_total := c.total - p.total
  let delta_used := c.used - p.used
  if 0 < delta_total then (delta_used : ℚ) / (delta_total : ℚ) * 100 else 0

/-- `SystemMonitor::run_checks` (system_monitor.cpp lines 221–330).
Returns the state after the run and the alert requests issued via
`check_thresholds`.  The outer `try`/`catch` makes a memory, disk or apt
collector exception abandon the run (state unchanged from the point of
the throw onward); the inner CPU `catch (...)` leaves `cpu_usage` at its
initial `0.0`. -/
def run_checks (cfg : DaemonConfig) (st : MonitorState) (env : RunChecksEnv) :
    MonitorState × List AlertRequest :=
  -- memory then disk collector; an exception aborts the whole check
  match env.mem with
  | none => (st, [])
  | some mem =>
  match env.disk with
  | none => (st, [])
  | some disk =>
    -- CPU usage via delta between successive /proc/stat reads
    let cpuStep : ℚ × CpuCounters × Bool :=
      match env.cpuReads with
      | none => (0, st.cpuPrev, st.cpuInit)
      | some (r1, r2) =>
        let pc : CpuCounters × CpuCounters :=
          if st.cpuInit then (st.cpuPrev, r1) else (r1, r2)
        (cpuUsageOf pc.1 pc.2, pc.2, true)
    let cpu_usage := cpuStep.1
    let st1 : MonitorState :=
      { st with cpuPrev := cpuStep.2.1, cpuInit := cpuStep.2.2 }
    -- apt updates, only every 5th cycle
    if cfg.enable_apt_monitor then
      let counterNew := st.aptCounter + 1  -- apt_counter_.fetch_add(1)
      let st2 : MonitorState := { st1 with aptCounter := counterNew }
      if st.aptCounter % 5 = 0 && !env.aptOk then
        -- apt_monitor_->check_updates() threw: outer catch, snapshot untouched
        (st2, [])
      else
        run_checksPublish cfg st2 env cpu_usage mem disk env.pending env.security
    else
      run_checksPublish cfg st1 env cpu_usage mem disk 0 0
where
  /-- The snapshot-publication and threshold-evaluation tail of
  `run_checks` (lines 292–320). -/
  run_checksPublish (cfg : DaemonConfig) (st : MonitorState) (env : RunChecksEnv)
      (cpu_usage : ℚ) (mem : MemStats) (disk : DiskStats)
      (pending security : Int) : MonitorState × List AlertRequest :=
    let snap : HealthSnapshot :=
      { timestamp := env.now
        cpu_usage_percent := cpu_usage
        memory_usage_percent := mem.usage_percent
        memory_used_mb := mem.used_mb
        memory_total_mb := mem.total_mb
        disk_usage_percent := disk.usage_percent
        disk_used_gb := disk.used_gb
        disk_total_gb := disk.total_gb
        pending_updates := pending
        security_updates := security
        active_alerts := if env.hasAlertManager then env.active
                         else st.snapshot.active_alerts
        critical_alerts := if env.hasAlertManager then env.critical
                           else st.snapshot.critical_alerts }
    ({ st with snapshot := snap },
     check_thresholds env.hasAlertManager cfg env.cachedUpdates snap)

/-! ## The monitor loop (`SystemMonitor::monitor_loop`) -/

/-- Observable actions of the scheduler worker: one health check
(`run_checks` call) or one 1-second sleep. -/
inductive LoopEvent where
  | check
  | sleep
deriving DecidableEq, Repr

/-- What the worker observes on one iteration of its `while (running_)`
loop: the `running_` flag, whether the configured interval has elapsed
since `last_check`, and the `check_requested_` trigger flag. -/
structure LoopTick where
  running : Bool
  intervalElapsed : Bool
  checkRequested : Bool
deriving DecidableEq, Repr

/-- The `while (running_)` body of `monitor_loop` (lines 202–216): sleep
one second, then run a check if the interval elapsed or a check was
requested. -/
def monitorLoopAux : List LoopTick → List LoopEvent
  | [] => []
  | t :: rest =>
    if !t.running then []
    else
      LoopEvent.sleep ::
        (if t.intervalElapsed || t.checkRequested then
          LoopEvent.check :: monitorLoopAux rest
        else
          monitorLoopAux rest)

/-- `SystemMonitor::monitor_loop` (lines 194–219) as its event trace over
a given schedule of loop-iteration observations: the initial immediate
`run_checks()` call, then the polling loop. -/
def monitorLoopEvents (ticks : List LoopTick) : List LoopEvent :=
  LoopEvent.check :: monitorLoopAux ticks

/-! ## Alert enrichment (`SystemMonitor::create_smart_alert`) -/

/-- `std::map<std::string,std::string>::operator[] = v`: replace the value
under an existing key, otherwise add the binding. -/
def cppMapInsert (m : List (String × String)) (k v : String) : List (String × String) :=
  if m.any fun kv => kv.1 == k then
    m.map fun kv => if kv.1 == k then (k, v) else kv
  else
    m ++ [(k, v)]

/-- Result of the LLM backend's `generate` call
(`HttpLLMClient::generate`, external). -/
structure LLMOutcome where
  success : Bool
  output : String
deriving DecidableEq, Repr

/-- The external world as one background enrichment task observes it:
the scheduler's `running_` flag at task start, whether the
`weak_ptr<AlertManager>` still locks, the AI-alert configuration read by
`generate_ai_alert`, the LLM call outcome (`Except.error` models the call
throwing), and the secondary `create` outcome (`Except.error` models the
store call throwing; `Except.ok` carries the returned id). -/
structure TaskEnv where
  runningAtStart : Bool
  storeAlive : Bool
  enable_ai_alerts : Bool
  clientPresent : Bool
  clientConfigured : Bool
  llmOutcome : Except Unit LLMOutcome
  createOutcome : Except Unit String

/-- `SystemMonitor::generate_ai_alert` (lines 434–482), abstracted over
the prompt text: returns the analysis string, whether the LLM
`generate` call was actually made, and propagates a thrown exception. -/
def generate_ai_alert (env : TaskEnv) : Except Unit (String × Bool) :=
  if !env.enable_ai_alerts || !env.clientPresent || !env.clientConfigured then
    Except.ok ("", false)
  else
    match env.llmOutcome with
    | Except.error e => Except.error e
    | Except.ok r =>
      Except.ok (if r.success && !(r.output == "") then r.output else "", true)

/-- What the `try { ... }` body of the AI-thread lambda (lines 522–580)
does: early return when `running_` is false or the weak store reference
fails to lock; otherwise generate the analysis and create the secondary
alert.  `raised` records whether an exception reached the surrounding
`catch`. -/
structure TaskBodyOutcome where
  llmCalled : Bool
  secondaryCreates : Nat
  raised : Bool
deriving DecidableEq, Repr

/-- The `try` body of the enrichment task lambda. -/
def enrichmentTaskBody (env : TaskEnv) : TaskBodyOutcome :=
  if !env.runningAtStart then
    -- "SystemMonitor stopping, skipping AI analysis"
    { llmCalled := false, secondaryCreates := 0, raised := false }
  else if !env.storeAlive then
    -- "AlertManager no longer available, skipping AI analysis"
    { llmCalled := false, secondaryCreates := 0, raised := false }
  else
    match generate_ai_alert env with
    | Except.error _ =>
      { llmCalled := true, secondaryCreates := 0, raised := true }
    | Except.ok ar =>
      -- build ai_metadata / ai_message, then alert_mgr->create(...)
      match env.createOutcome with
      | Except.error _ =>
        { llmCalled := ar.2, secondaryCreates := 0, raised := true }
      | Except.ok _id =>
        { llmCalled := ar.2, secondaryCreates := 1, raised := false }

/-- The final state of one enrichment task: the shared `done` flag after
the thread exits, and the task's observable effects. -/
structure TaskResult where
  done : Bool
  llmCalled : Bool
  secondaryCreates : Nat
deriving DecidableEq, Repr

/-- The whole AI-thread lambda (lines 514–581): the `try` body wrapped in
the catch-all handlers, under the `DoneGuard` whose destructor stores
`true` into the shared `done` flag on every exit path of the lambda. -/
def runEnrichmentTask (env : TaskEnv) : TaskResult :=
  let body := enrichmentTaskBody env
  -- the catch blocks only log; DoneGuard's destructor then sets done
  { done := true
    llmCalled := body.llmCalled
    secondaryCreates := body.secondaryCreates }

/-- Arguments of one `create_smart_alert` call. -/
structure SmartAlertArgs where
  severity : AlertSeverity
  type : AlertType
  title : String
  message : String
  ai_context : String
  metadata : List (String × String)
deriving DecidableEq, Repr

/-- The environment of one `create_smart_alert` call: the id the alert
store returns for the primary alert, and the LLM client's presence and
configuration state. -/
structure SmartAlertEnv where
  createdId : String
  clientPresent : Bool
  clientConfigured : Bool
deriving DecidableEq, Repr

/-- The observable outcome of `create_smart_alert`: the synchronous
primary store `create` call (with its `ai_enhanced = pending` metadata)
and how many background enrichment threads were spawned. -/
structure SmartAlertResult where
  primaryCreate : Option SmartAlertArgs
  tasksSpawned : Nat
deriving DecidableEq, Repr

/-- `SystemMonitor::create_smart_alert` (lines 484–591): create the
primary alert synchronously, then spawn one AI-analysis thread unless the
returned id is empty or the LLM client is absent or unconfigured. -/
def create_smart_alert (env : SmartAlertEnv) (a : SmartAlertArgs) : SmartAlertResult :=
  let metadata_copy := cppMapInsert a.metadata "ai_enhanced" "pending"
  let primary : SmartAlertArgs := { a with metadata := metadata_copy }
  let alert_id := env.createdId
  if alert_id == "" || !env.clientPresent || !env.clientConfigured then
    { primaryCreate := some primary, tasksSpawned := 0 }
  else
    { primaryCreate := some primary, tasksSpawned := 1 }

/-! ## IPC request parsing (`Request::parse`, protocol.cpp) -/

/-- JSON values as `nlohmann::json` delivers them to `Request::parse`.
The parser stores a numeric literal either as a 64-bit integer
(`number_integer`/`number_unsigned`, here `num_int`; the parser only
produces payloads representable in 64 bits — larger literals fall back to
float storage) or as a double (`number_float`, here `num_float`, with the
double embedded as a rational like every other double in this file). -/
inductive Json where
  | null
  | bool (b : Bool)
  | num_int (n : Int)
  | num_float (q : ℚ)
  | str (s : String)
  | arr (elems : List Json)
  | obj (fields : List (String × Json))

/-- `j.contains(key)` followed by `j[key]`: `none` when `j` is not an
object or lacks the key. -/
def Json.lookup : Json → String → Option Json
  | Json.obj fields, key => goLookup fields key
  | _, _ => none
where
  goLookup : List (String × Json) → String → Option Json
    | [], _ => none
    | kv :: rest, key => if kv.1 == key then some kv.2 else goLookup rest key

/-- The parsed IPC request (`struct Request` in `protocol.h`). -/
structure Request where
  method : String
  params : Json
  id : Option String

/-- C++ `static_cast<int>` of a 64-bit (signed or unsigned) integer
value: two's-complement wrap into the 32-bit `int` range. -/
def cppInt32Wrap (n : Int) : Int :=
  (n + 2 ^ 31) % 2 ^ 32 - 2 ^ 31

/-- C++ `static_cast<int>` of a double: truncation toward zero; when the
truncated value is not representable in `int` the conversion is
undefined behavior, modelled here as the x86-64 `cvttsd2si` result
`INT_MIN`. -/
def cppDoubleToInt32 (q : ℚ) : Int :=
  if -((2 : ℚ) ^ 31) - 1 < q ∧ q < (2 : ℚ) ^ 31 then cppTruncInt q
  else -(2 ^ 31)

/-- `nlohmann::json::get<int>()` on a number: integer-stored numbers are
`static_cast` from their 64-bit storage, float-stored numbers are
`static_cast` from the double. -/
def Json.getInt : Json → Int
  | Json.num_int n => cppInt32Wrap n
  | Json.num_float q => cppDoubleToInt32 q
  | _ => 0

/-- `Request::parse` (protocol.cpp lines 11–46), over the outcome of
`json::parse` (`none` models the parse throwing on invalid JSON).
A numeric id goes through `std::to_string(j["id"].get<int>())`, so it is
wrapped (integer storage) or truncated (float storage) to a 32-bit `int`
before rendering. -/
def Request.parse (input : Option Json) : Option Request :=
  match input with
  | none => none
  | some j =>
    match j.lookup "method" with
    | some (Json.str m) =>
      some { method := m
             params := (j.lookup "params").getD (Json.obj [])
             id := match j.lookup "id" with
                   | some (Json.str s) => some s
                   | some (Json.num_int n) =>
                     some (toString (Json.getInt (Json.num_int n)))
                   | some (Json.num_float q) =>
                     some (toString (Json.getInt (Json.num_float q)))
                   | _ => none }
    | _ => none

/-! ## RateLimiter -/

/-- Modelled from the spec: the `RateLimiter` implementation
(`cortexd/ipc/server.h`) is not among the provided sources, only its unit
tests (`test_rate_limiter.cpp`) are.  Per spec section 4.4 its state is
`window_start`, `count_in_window` and `limit`; times are in
milliseconds. -/
structure RateLimiter where
  limit : Nat
  window_start : Int
  count : Nat
deriving DecidableEq, Repr

/-- The fixed window width: 1000 ms (spec section 4.4). -/
def RateLimiter.windowSizeMs : Int := 1000

/-- Modelled from the spec: constructing a `RateLimiter` with a limit
starts an empty window at the current time. -/
def RateLimiter.init (limit : Nat) (now : Int) : RateLimiter :=
  { limit := limit, window_start := now, count := 0 }

/-- Modelled from the spec: `Allow()` — when the window has fully elapsed
since `window_start`, reset the counter and start a new window before
evaluating the call; then admit exactly when the count is below the
limit, incrementing at admission time. -/
def RateLimiter.allow (s : RateLimiter) (now : Int) : Bool × RateLimiter :=
  let s1 := if RateLimiter.windowSizeMs ≤ now - s.window_start then
              { s with window_start := now, count := 0 }
            else s
  if s1.count < s1.limit then
    (true, { s1 with count := s1.count + 1 })
  else
    (false, s1)

/-- A sequence of `Allow()` calls at the given times, returning the
admission decisions. -/
def RateLimiter.allowSeq (s : RateLimiter) : List Int → List Bool
  | [] => []
  | t :: ts =>
    let r := s.allow t
    r.1 :: r.2.allowSeq ts

/-! ## Specification-side descriptions and claim statements -/

/-- The security updates the spec says get listed: the first 5 pending
security updates (spec section 4.2). -/
def specListedSecurityUpdates (cached : List PackageUpdate) : List PackageUpdate :=
  (cached.filter fun u => u.is_security).take 5

/-- One `"- <name>\n"` line per listed update. -/
def fmtUpdateLines : List PackageUpdate → String
  | [] => ""
  | u :: rest => "- " ++ u.to_string ++ "\n" ++ fmtUpdateLines rest

/-- The security-alert context the spec describes: the count, the listed
update names, and — when more security updates exist than were listed —
a trailing count of the remainder. -/
def specSecurityContext (cached : List PackageUpdate) (n : Int) : String :=
  let listed := specListedSecurityUpdates cached
  toString n ++ " security updates available:\n" ++
    (fmtUpdateLines listed ++
      (if (listed.length : Int) < n then
        "... and " ++ toString (n - (listed.length : Int)) ++ " more\n"
       else ""))

/-- All three usage percentages of a snapshot lie in `[0, 100]`. -/
def snapshotPercentsInRange (s : HealthSnapshot) : Prop :=
  0 ≤ s.cpu_usage_percent ∧ s.cpu_usage_percent ≤ 100 ∧
  0 ≤ s.memory_usage_percent ∧ s.memory_usage_percent ≤ 100 ∧
  0 ≤ s.disk_usage_percent ∧ s.disk_usage_percent ≤ 100

instance (s : HealthSnapshot) : Decidable (snapshotPercentsInRange s) := by
  unfold snapshotPercentsInRange; infer_instance

/-- Componentwise monotonicity of two cumulative CPU counter samples
(what `/proc/stat` guarantees between successive reads). -/
def cpuCountersLE (a b : CpuCounters) : Prop :=
  a.user ≤ b.user ∧ a.nice ≤ b.nice ∧ a.system ≤ b.system ∧
  a.idle ≤ b.idle ∧ a.iowait ≤ b.iowait

instance (a b : CpuCounters) : Decidable (cpuCountersLE a b) := by
  unfold cpuCountersLE; infer_instance

/-- Claim C4 as stated: whenever a collector fails during a health check,
the corresponding snapshot field — including the CPU usage percentage —
keeps its previous value. -/
def collectorFailureKeepsFields : Prop :=
  (∀ (cfg : DaemonConfig) (st : MonitorState) (env : RunChecksEnv),
    env.cpuReads = none →
    (run_checks cfg st env).1.snapshot.cpu_usage_percent =
      st.snapshot.cpu_usage_percent) ∧
  (∀ (cfg : DaemonConfig) (st : MonitorState) (env : RunChecksEnv),
    env.mem = none → (run_checks cfg st env).1.snapshot = st.snapshot) ∧
  (∀ (cfg : DaemonConfig) (st : MonitorState) (env : RunChecksEnv),
    env.disk = none → (run_checks cfg st env).1.snapshot = st.snapshot)

/-- Is a JSON value a string? -/
def Json.isStr : Json → Bool
  | Json.str _ => true
  | _ => false

/-- Is a JSON value a number (`is_number()`: integer- or float-stored)? -/
def Json.isNum : Json → Bool
  | Json.num_int _ => true
  | Json.num_float _ => true
  | _ => false

/-- The `method` field of a JSON value when present as a string. -/
def methodStringAt (j : Json) : Option String :=
  match j.lookup "method" with
  | some (Json.str m) => some m
  | _ => none

/-- Claim C8 as stated: `Request::parse` fails exactly on invalid JSON or
a missing/non-string `method`; otherwise the parsed request carries that
method, the supplied (or empty) params, and an id that is the supplied
string, the decimal rendering of the supplied number, or absent when no
id was supplied. -/
def requestParseClaim (input : Option Json) : Prop :=
  (Request.parse input = none ↔
    input = none ∨ ∃ j, input = some j ∧ methodStringAt j = none) ∧
  (∀ j req, input = some j → Request.parse input = some req →
    methodStringAt j = some req.method ∧
    req.params = (j.lookup "params").getD (Json.obj []) ∧
    ((∃ s, j.lookup "id" = some (Json.str s) ∧ req.id = some s) ∨
     (∃ n : Int, j.lookup "id" = some (Json.num_int n) ∧ req.id = some (toString n)) ∨
     (j.lookup "id" = none ∧ req.id = none)))

/-- Claim C8 amended: a numeric id is rendered from the C++ `int` that
`get<int>()` produces — the 32-bit two's-complement wrap of an
integer-stored number, or the 32-bit truncation toward zero of a
float-stored number — and the id is additionally absent when the supplied
id is neither a string nor a number. -/
def requestParseAmended (input : Option Json) : Prop :=
  (Request.parse input = none ↔
    input = none ∨ ∃ j, input = some j ∧ methodStringAt j = none) ∧
  (∀ j req, input = some j → Request.parse input = some req →
    methodStringAt j = some req.method ∧
    req.params = (j.lookup "params").getD (Json.obj []) ∧
    ((∃ s, j.lookup "id" = some (Json.str s) ∧ req.id = some s) ∨
     (∃ n : Int, j.lookup "id" = some (Json.num_int n) ∧
       req.id = some (toString (cppInt32Wrap n))) ∨
     (∃ q : ℚ, j.lookup "id" = some (Json.num_float q) ∧
       req.id = some (toString (cppDoubleToInt32 q))) ∨
     (j.lookup "id" = none ∧ req.id = none) ∨
     (∃ v, j.lookup "id" = some v ∧ v.isStr = false ∧ v.isNum = false ∧
       req.id = none)))

/-! ## Concrete sample inputs used by witnesses and counterexamples -/

/-- A task environment whose scheduler has already stopped. -/
def taskEnvStopped : TaskEnv :=
  { runningAtStart := false, storeAlive := true, enable_ai_alerts := true
    clientPresent := true, clientConfigured := true
    llmOutcome := Except.ok { success := true, output := "advice" }
    createOutcome := Except.ok "secondary" }

/-- A configuration with apt monitoring disabled and permissive
thresholds. -/
def sampleConfig : DaemonConfig :=
  { disk_warn_threshold := 8/10, disk_crit_threshold := 95/100
    mem_warn_threshold := 85/100, mem_crit_threshold := 95/100
    enable_apt_monitor := false }

/-- A monitor state whose published snapshot has CPU usage 50%. -/
def sampleStateCpu50 : MonitorState :=
  { snapshot := { cpu_usage_percent := 50, memory_usage_percent := 40
                  disk_usage_percent := 30 }
    cpuPrev := {}, cpuInit := true, aptCounter := 0 }

/-- An environment where the CPU sampling throws but memory and disk
collectors succeed. -/
def envCpuFailure : RunChecksEnv :=
  { now := 1000, mem := some { usage_percent := 40, used_mb := 4000, total_mb := 10000 }
    disk := some { usage_percent := 30, used_gb := 30, total_gb := 100 }
    cpuReads := none, aptOk := true, pending := 0, security := 0
    cachedUpdates := [], hasAlertManager := false, active := 0, critical := 0 }

/-- An environment where the memory collector throws. -/
def envMemFailure : RunChecksEnv :=
  { envCpuFailure with mem := none }

/-- A fresh monitor state (all counters and snapshot fields zero, CPU
bootstrap still pending). -/
def sampleFreshState : MonitorState :=
  { snapshot := {}, cpuPrev := {}, cpuInit := false, aptCounter := 0 }

/-- A healthy environment: both collectors succeed with in-range
percentages and the CPU counters advance monotonically. -/
def envHealthy : RunChecksEnv :=
  { now := 2000, mem := some { usage_percent := 42, used_mb := 4200, total_mb := 10000 }
    disk := some { usage_percent := 50, used_gb := 50, total_gb := 100 }
    cpuReads := some ({ user := 1, nice := 0, system := 1, idle := 1, iowait := 0 },
                      { user := 2, nice := 0, system := 1, idle := 2, iowait := 0 })
    aptOk := true, pending := 0, security := 0
    cachedUpdates := [], hasAlertManager := false, active := 0, critical := 0 }

/-- Seven cached updates, all security, for the security-alert witness. -/
def sampleSecurityUpdates : List PackageUpdate :=
  [{ display := "openssl 3.0.1", is_security := true },
   { display := "libxml2 2.9.14", is_security := true },
   { display := "curl 7.88.0", is_security := true },
   { display := "sudo 1.9.13", is_security := true },
   { display := "glibc 2.37", is_security := true },
   { display := "bash 5.2.15", is_security := true },
   { display := "zlib 1.2.13", is_security := true }]

/-- A snapshot reporting seven pending security updates. -/
def sampleSecuritySnapshot : HealthSnapshot :=
  { security_updates := 7 }

/-- A request whose `id` field is a boolean — supplied, yet neither a
string nor a number. -/
def jBoolId : Json :=
  Json.obj [("method", Json.str "ping"), ("id", Json.bool true)]

/-- A request with a small integer id. -/
def jNumId : Json :=
  Json.obj [("method", Json.str "status"), ("id", Json.num_int 42)]

/-- A request whose integer id does not fit a 32-bit `int`
(5000000000 wraps to 705032704). -/
def jBigNumId : Json :=
  Json.obj [("method", Json.str "status"), ("id", Json.num_int 5000000000)]

/-- A request whose id is float-stored (3.5 truncates to 3). -/
def jFloatId : Json :=
  Json.obj [("method", Json.str "status"), ("id", Json.num_float (7/2))]

/-! ## Theorems -/

/-- C1: every background enrichment task spawned by `create_smart_alert`
has its shared `done` flag set to `true` once the task body has finished,
on every exit path — normal completion, cooperative-cancellation early
return, unresolvable store reference, and exceptional exit (the
`DoneGuard` destructor runs unconditionally). -/
theorem enrichment_task_always_sets_done (env : TaskEnv) :
    (runEnrichmentTask env).done = true := rfl

/-- C2: a task that starts after the scheduler's running flag went false,
or whose weak reference to the alert store cannot be resolved, performs no
LLM generation and creates no secondary alert. -/
theorem enrichment_task_cancelled_no_side_effects (env : TaskEnv)
    (h : env.runningAtStart = false ∨ env.storeAlive = false) :
    (runEnrichmentTask env).llmCalled = false ∧
    (runEnrichmentTask env).secondaryCreates = 0 := by
  obtain h | h := h
  · simp [runEnrichmentTask, enrichmentTaskBody, h]
  · cases hr : env.runningAtStart
    · simp [runEnrichmentTask, enrichmentTaskBody, hr]
    · simp [runEnrichmentTask, enrichmentTaskBody, hr, h]

/-- Witness for C2: a concrete task environment whose scheduler has
stopped does no LLM work and writes nothing. -/
theorem enrichment_task_cancelled_no_side_effects_witness :
    taskEnvStopped.runningAtStart = false ∧
    (runEnrichmentTask taskEnvStopped).llmCalled = false ∧
    (runEnrichmentTask taskEnvStopped).secondaryCreates = 0 :=
  ⟨rfl, enrichment_task_cancelled_no_side_effects taskEnvStopped (Or.inl rfl)⟩

/-- C3: `create_smart_alert` creates the primary alert synchronously via
the alert store (with the `ai_enhanced = pending` marker) before
returning, and schedules a background enrichment task exactly when the
store returned a non-empty alert id and the LLM backend is present and
configured; never more than one task per call. -/
theorem create_smart_alert_primary_and_task (env : SmartAlertEnv) (a : SmartAlertArgs) :
    (create_smart_alert env a).primaryCreate =
      some { a with metadata := cppMapInsert a.metadata "ai_enhanced" "pending" } ∧
    (create_smart_alert env a).tasksSpawned =
      (if !(env.createdId == "") && env.clientPresent && env.clientConfigured
       then 1 else 0) ∧
    (create_smart_alert env a).tasksSpawned ≤ 1 := by
  cases h1 : env.createdId == "" <;>
    cases h2 : env.clientPresent <;>
      cases h3 : env.clientConfigured <;>
        simp [create_smart_alert, h1, h2, h3]

/-- C10: the scheduler worker runs one full health check immediately when
the monitor loop starts, before its first one-second sleep, for every
possible schedule of subsequent loop iterations. -/
theorem monitor_loop_runs_initial_check (ticks : List LoopTick) :
    ∃ rest, monitorLoopEvents ticks = LoopEvent.check :: rest :=
  ⟨monitorLoopAux ticks, rfl⟩

/-- C9: for a rate limiter with limit 3, four calls within one window
admit the first three and reject the fourth; a call observing a fully
elapsed window resets the counter and starts a new window before being
evaluated (so it is admitted, with count 1 in the fresh window); and
admission never pushes the in-window count beyond the limit. -/
theorem rate_limiter_window_behavior :
    (∀ t0 t1 t2 t3 t4 : Int,
      t1 - t0 < 1000 → t2 - t0 < 1000 → t3 - t0 < 1000 → t4 - t0 < 1000 →
      (RateLimiter.init 3 t0).allowSeq [t1, t2, t3, t4] =
        [true, true, true, false]) ∧
    (∀ (s : RateLimiter) (now : Int),
      1000 ≤ now - s.window_start → 0 < s.limit →
      s.allow now = (true, { limit := s.limit, window_start := now, count := 1 })) ∧
    (∀ (s : RateLimiter) (now : Int), s.count ≤ s.limit →
      ((s.allow now).2).count ≤ s.limit) := by
  refine ⟨?_, ?_, ?_⟩
  · intro t0 t1 t2 t3 t4 h1 h2 h3 h4
    simp [RateLimiter.allowSeq, RateLimiter.allow, RateLimiter.init,
          RateLimiter.windowSizeMs, not_le.mpr h1, not_le.mpr h2,
          not_le.mpr h3, not_le.mpr h4]
  · intro s now h hl
    simp [RateLimiter.allow, RateLimiter.windowSizeMs, if_pos h, hl]
  · intro s now h
    simp only [RateLimiter.allow]
    split_ifs <;> simp_all <;> omega

/-- Witness for C9: the limit-3 admission pattern on concrete call times,
the rollover call at 1500 ms, and the invariant at the full window. -/
theorem rate_limiter_window_behavior_witness :
    ((1 : Int) - 0 < 1000 ∧
      (RateLimiter.init 3 0).allowSeq [1, 2, 3, 4] = [true, true, true, false]) ∧
    ((1000 : Int) ≤ 1500 - 0 ∧
      RateLimiter.allow { limit := 3, window_start := 0, count := 3 } 1500 =
        (true, { limit := 3, window_start := 1500, count := 1 })) ∧
    ((RateLimiter.allow { limit := 3, window_start := 0, count := 3 } 500).2).count ≤ 3 :=
  ⟨⟨by decide,
    rate_limiter_window_behavior.1 0 1 2 3 4 (by decide) (by decide) (by decide) (by decide)⟩,
   ⟨by decide,
    rate_limiter_window_behavior.2.1 { limit := 3, window_start := 0, count := 3 } 1500
      (by decide) (by decide)⟩,
   rate_limiter_window_behavior.2.2 { limit := 3, window_start := 0, count := 3 } 500
     (by decide)⟩

/-- C5: one threshold evaluation emits, per resource (disk, memory),
exactly one CRITICAL alert when usage is at or above the critical
threshold, otherwise exactly one WARNING alert when usage is at or above
the warning threshold, otherwise none — CRITICAL and WARNING are never
both emitted for the same resource. -/
theorem check_thresholds_disk_memory_policy (cfg : DaemonConfig)
    (cached : List PackageUpdate) (s : HealthSnapshot) :
    (alertsFor AlertType.DISK_USAGE (check_thresholds true cfg cached s)).map
        (fun a => a.severity) =
      (if cfg.disk_crit_threshold ≤ s.disk_usage_percent / 100 then
        [AlertSeverity.CRITICAL]
       else if cfg.disk_warn_threshold ≤ s.disk_usage_percent / 100 then
        [AlertSeverity.WARNING]
       else []) ∧
    (alertsFor AlertType.MEMORY_USAGE (check_thresholds true cfg cached s)).map
        (fun a => a.severity) =
      (if cfg.mem_crit_threshold ≤ s.memory_usage_percent / 100 then
        [AlertSeverity.CRITICAL]
       else if cfg.mem_warn_threshold ≤ s.memory_usage_percent / 100 then
        [AlertSeverity.WARNING]
       else []) := by
  constructor <;>
    · simp only [check_thresholds, alertsFor, Bool.not_true, Bool.false_eq_true,
        if_false]
      split_ifs <;> simp

/-- The update-list loop of `check_thresholds` lists exactly the first
`5 - c` security updates of the cache and counts how many it listed. -/
theorem updateListLoop_eq (l : List PackageUpdate) (c : Nat) (hc : c ≤ 5) :
    updateListLoop l c =
      (fmtUpdateLines ((l.filter fun u => u.is_security).take (5 - c)),
       c + min (5 - c) (l.filter fun u => u.is_security).length) := by
  induction l generalizing c with
  | nil => simp [updateListLoop, fmtUpdateLines]
  | cons u rest ih =>
    by_cases hs : u.is_security
    · by_cases h5 : c < 5
      · have h54 : 5 - c = (5 - (c + 1)) + 1 := by omega
        simp [updateListLoop, hs, h5, ih (c + 1) (by omega),
          List.filter_cons_of_pos, h54, List.take_succ_cons, fmtUpdateLines,
          Prod.mk.injEq, String.append_assoc, List.length_cons]
        omega
      · have hc5 : c = 5 := by omega
        subst hc5
        simp [updateListLoop, hs, ih 5 (by omega), List.filter_cons_of_pos,
          fmtUpdateLines]
    · simp [updateListLoop, hs, ih c hc, List.filter_cons_of_neg]

/-- `securityUpdateList` produces exactly the listed names followed by
the remainder trailer the spec describes. -/
theorem securityUpdateList_spec (cached : List PackageUpdate) (n : Int) :
    securityUpdateList cached n =
      fmtUpdateLines (specListedSecurityUpdates cached) ++
        (if ((specListedSecurityUpdates cached).length : Int) < n then
          "... and " ++
            toString (n - ((specListedSecurityUpdates cached).length : Int)) ++
            " more\n"
         else "") := by
  unfold securityUpdateList specListedSecurityUpdates
  rw [updateListLoop_eq cached 0 (by omega)]
  simp [List.length_take]
  split_ifs <;> simp [String.append_assoc]

/-- C7: when a snapshot reports pending security updates, the evaluation
emits exactly one WARNING security-update alert whose context lists at
most the first 5 pending security updates and, when more exist than were
listed, a trailing count of the remainder; with no pending security
updates no such alert is emitted. -/
theorem check_thresholds_security_alert (cfg : DaemonConfig)
    (cached : List PackageUpdate) (s : HealthSnapshot) :
    (0 < s.security_updates →
      (alertsFor AlertType.SECURITY_UPDATE (check_thresholds true cfg cached s)).map
          (fun a => (a.severity, a.ai_context)) =
        [(AlertSeverity.WARNING, specSecurityContext cached s.security_updates)]) ∧
    (s.security_updates = 0 →
      alertsFor AlertType.SECURITY_UPDATE (check_thresholds true cfg cached s) = []) := by
  constructor
  · intro h
    simp only [check_thresholds, alertsFor, Bool.not_true, Bool.false_eq_true, if_false,
      if_pos h]
    split_ifs <;>
      simp [specSecurityContext, securityUpdateList_spec, String.append_assoc]
  · intro h
    simp only [check_thresholds, alertsFor, Bool.not_true, Bool.false_eq_true, if_false,
      h]
    norm_num
    split_ifs <;> simp

/-- Witness for C7: seven cached security updates with a snapshot count
of 7 produce exactly one WARNING alert whose context lists the first 5
and reports 2 more. -/
theorem check_thresholds_security_alert_witness :
    (0 : Int) < sampleSecuritySnapshot.security_updates ∧
    (alertsFor AlertType.SECURITY_UPDATE
        (check_thresholds true sampleConfig sampleSecurityUpdates
          sampleSecuritySnapshot)).map (fun a => (a.severity, a.ai_context)) =
      [(AlertSeverity.WARNING,
        specSecurityContext sampleSecurityUpdates
          sampleSecuritySnapshot.security_updates)] :=
  ⟨by decide,
   (check_thresholds_security_alert sampleConfig sampleSecurityUpdates
      sampleSecuritySnapshot).1 (by decide)⟩

/-- The delta-based CPU percentage lies in `[0, 100]` whenever the two
counter samples are componentwise monotone. -/
theorem cpuUsageOf_in_range (p c : CpuCounters) (h : cpuCountersLE p c) :
    0 ≤ cpuUsageOf p c ∧ cpuUsageOf p c ≤ 100 := by
  obtain ⟨h1, h2, h3, h4, h5⟩ := h
  unfold cpuUsageOf
  set dT : Int := c.total - p.total with hdT
  set dU : Int := c.used - p.used with hdU
  by_cases hpos : 0 < dT
  · have hU0 : 0 ≤ dU := by
      simp only [hdU, CpuCounters.used]; omega
    have hUT : dU ≤ dT := by
      simp only [hdU, hdT, CpuCounters.used, CpuCounters.total]; omega
    have hq0 : (0 : ℚ) ≤ (dU : ℚ) / (dT : ℚ) := by
      apply div_nonneg
      · exact_mod_cast hU0
      · exact_mod_cast le_of_lt hpos
    have hq1 : (dU : ℚ) / (dT : ℚ) ≤ 1 := by
      rw [div_le_one (by exact_mod_cast hpos)]
      exact_mod_cast hUT
    constructor
    · simp only [if_pos hpos]
      positivity
    · simp only [if_pos hpos]
      calc (dU : ℚ) / (dT : ℚ) * 100 ≤ 1 * 100 := by
            exact mul_le_mul_of_nonneg_right hq1 (by norm_num)
        _ = 100 := by norm_num
  · simp [if_neg hpos]

/-- C6: the snapshot published by a health check keeps all three usage
percentages in `[0, 100]`, given that the previously published snapshot
did, that the external memory and disk collectors report percentages in
range, and that the cumulative CPU counters are monotone between
successive reads. -/
theorem run_checks_percentages_in_range (cfg : DaemonConfig)
    (st : MonitorState) (env : RunChecksEnv)
    (hprev : snapshotPercentsInRange st.snapshot)
    (hmem : ∀ m, env.mem = some m → 0 ≤ m.usage_percent ∧ m.usage_percent ≤ 100)
    (hdisk : ∀ d, env.disk = some d → 0 ≤ d.usage_percent ∧ d.usage_percent ≤ 100)
    (hcpu : ∀ r, env.cpuReads = some r →
      cpuCountersLE st.cpuPrev r.1 ∧ cpuCountersLE r.1 r.2) :
    snapshotPercentsInRange (run_checks cfg st env).1.snapshot := by
  rcases hm : env.mem with _ | mem
  · simpa [run_checks, hm] using hprev
  rcases hd : env.disk with _ | disk
  · simpa [run_checks, hm, hd] using hprev
  have hmemR := hmem mem hm
  have hdiskR := hdisk disk hd
  have hcpuR : 0 ≤ (match env.cpuReads with
      | none => ((0 : ℚ), st.cpuPrev, st.cpuInit)
      | some (r1, r2) =>
        let pc : CpuCounters × CpuCounters :=
          if st.cpuInit then (st.cpuPrev, r1) else (r1, r2)
        (cpuUsageOf pc.1 pc.2, pc.2, true)).1 ∧
      (match env.cpuReads with
      | none => ((0 : ℚ), st.cpuPrev, st.cpuInit)
      | some (r1, r2) =>
        let pc : CpuCounters × CpuCounters :=
          if st.cpuInit then (st.cpuPrev, r1) else (r1, r2)
        (cpuUsageOf pc.1 pc.2, pc.2, true)).1 ≤ 100 := by
    rcases hr : env.cpuReads with _ | ⟨r1, r2⟩
    · simp
    · have hmono := hcpu (r1, r2) hr
      rcases hinit : st.cpuInit <;>
        simpa [hinit] using cpuUsageOf_in_range _ _ (by
          first
          | exact hmono.2
          | exact hmono.1)
  unfold snapshotPercentsInRange at hprev ⊢
  simp only [run_checks, hm, hd, run_checks.run_checksPublish]
  rcases henA : cfg.enable_apt_monitor with _ | _ <;>
    split_ifs <;>
      simp_all

/-- Witness for C6: a concrete healthy check run from a fresh state
publishes in-range percentages. -/
theorem run_checks_percentages_in_range_witness :
    snapshotPercentsInRange (run_checks sampleConfig sampleFreshState envHealthy).1.snapshot :=
  run_checks_percentages_in_range sampleConfig sampleFreshState envHealthy
    (by decide)
    (fun m hm => by injection hm with h; subst h; decide)
    (fun d hd => by injection hd with h; subst h; decide)
    (fun r hr => by injection hr with h; subst h; decide)

/-- Counterexample to C4 as stated: with the previous snapshot at CPU
usage 50% and the CPU sampling failing (memory and disk succeeding), the
published snapshot's CPU usage becomes 0, not the previous 50. -/
theorem run_checks_cpu_failure_counterexample : ¬ collectorFailureKeepsFields := by
  intro h
  have hx := h.1 sampleConfig sampleStateCpu50 envCpuFailure rfl
  exact absurd hx (by decide)

/-- C4 amended: a memory or disk collector failure (or an apt check
failure) abandons the whole check, leaving every snapshot field at its
previous value and emitting no alert; a CPU sampling failure leaves the
snapshot either unchanged (when the check is abandoned later) or with
`cpu_usage_percent = 0` — and no failure aborts the loop (`run_checks`
always returns). -/
theorem run_checks_collector_failure_amended (cfg : DaemonConfig)
    (st : MonitorState) (env : RunChecksEnv) :
    (env.mem = none → run_checks cfg st env = (st, [])) ∧
    (env.disk = none → run_checks cfg st env = (st, [])) ∧
    (cfg.enable_apt_monitor = true → st.aptCounter % 5 = 0 → env.aptOk = false →
      (run_checks cfg st env).1.snapshot = st.snapshot ∧
      (run_checks cfg st env).2 = []) ∧
    (env.cpuReads = none →
      (run_checks cfg st env).1.snapshot = st.snapshot ∨
      (run_checks cfg st env).1.snapshot.cpu_usage_percent = 0) := by
  refine ⟨?_, ?_, ?_, ?_⟩
  · intro hm
    simp [run_checks, hm]
  · intro hd
    rcases hm : env.mem with _ | mem
    · simp [run_checks, hm]
    · simp [run_checks, hm, hd]
  · intro h1 h2 h3
    rcases hm : env.mem with _ | mem
    · simp [run_checks, hm]
    rcases hd : env.disk with _ | disk
    · simp [run_checks, hm, hd]
    simp [run_checks, hm, hd, h1, h2, h3]
  · intro hc
    rcases hm : env.mem with _ | mem
    · exact Or.inl (by simp [run_checks, hm])
    rcases hd : env.disk with _ | disk
    · exact Or.inl (by simp [run_checks, hm, hd])
    simp only [run_checks, hm, hd, hc, run_checks.run_checksPublish]
    split_ifs <;> simp

/-- Witness for the amended C4: a failed memory collector leaves the
concrete state untouched; a failed CPU sampling yields CPU usage 0. -/
theorem run_checks_collector_failure_amended_witness :
    run_checks sampleConfig sampleStateCpu50 envMemFailure = (sampleStateCpu50, []) ∧
    ((run_checks sampleConfig sampleStateCpu50 envCpuFailure).1.snapshot =
        sampleStateCpu50.snapshot ∨
      (run_checks sampleConfig sampleStateCpu50 envCpuFailure).1.snapshot.cpu_usage_percent
        = 0) :=
  ⟨(run_checks_collector_failure_amended sampleConfig sampleStateCpu50 envMemFailure).1
      rfl,
   (run_checks_collector_failure_amended sampleConfig sampleStateCpu50
      envCpuFailure).2.2.2 rfl⟩

/-- Counterexample to C8 as stated: for the input
`{"method": "ping", "id": true}` parsing succeeds with an absent id, yet
an id *was* supplied (it is neither a string nor a number), so the
claim's id description fails. -/
theorem request_parse_claim_counterexample : ¬ requestParseClaim (some jBoolId) := by
  intro h
  have h2 := (h.2 jBoolId { method := "ping", params := Json.obj [], id := none } rfl
    (by rfl)).2.2
  rcases h2 with ⟨s, hs, _⟩ | ⟨n, hn, _⟩ | ⟨hnone, _⟩
  · simp [jBoolId, Json.lookup, Json.lookup.goLookup] at hs
  · simp [jBoolId, Json.lookup, Json.lookup.goLookup] at hn
  · simp [jBoolId, Json.lookup, Json.lookup.goLookup] at hnone

/-- C8 amended: `Request::parse` fails exactly on invalid JSON or a
missing/non-string `method`; otherwise the request carries that method,
the supplied params (empty object when absent), and an id that is the
supplied string, **the decimal rendering of the C++ `int` that
`get<int>()` yields from the supplied number (32-bit two's-complement
wrap of an integer-stored number, 32-bit truncation toward zero of a
float-stored number)**, or absent when no id was supplied **or the
supplied id is neither a string nor a number**. -/
theorem request_parse_amended (input : Option Json) : requestParseAmended input := by
  unfold requestParseAmended
  rcases input with _ | j
  · refine ⟨by simp [Request.parse], ?_⟩
    intro j req hj
    exact absurd hj (by simp)
  · rcases hm : j.lookup "method" with _ | v
    · refine ⟨?_, ?_⟩
      · simp only [Request.parse, hm]
        constructor
        · intro _
          exact Or.inr ⟨j, rfl, by simp [methodStringAt, hm]⟩
        · intro _
          trivial
      · intro j' req hj hreq
        rw [show Request.parse (some j) = none from by simp [Request.parse, hm]] at hreq
        exact absurd hreq (by simp)
    · cases v with
      | str m =>
        refine ⟨?_, ?_⟩
        · simp only [Request.parse, hm]
          constructor
          · intro hcon
            exact absurd hcon (by simp)
          · rintro (hcon | ⟨j', hj', hnone⟩)
            · exact absurd hcon (by simp)
            · injection hj' with hjj
              subst hjj
              simp [methodStringAt, hm] at hnone
        · intro j' req hj hreq
          injection hj with hjj
          subst hjj
          simp only [Request.parse, hm] at hreq
          injection hreq with hr
          subst hr
          refine ⟨by simp [methodStringAt, hm], rfl, ?_⟩
          rcases hid : j.lookup "id" with _ | w
          · simp
          · cases w <;> simp [Json.isStr, Json.isNum, Json.getInt]
      | null =>
        refine ⟨?_, ?_⟩
        · simp only [Request.parse, hm]
          exact ⟨fun _ => Or.inr ⟨j, rfl, by simp [methodStringAt, hm]⟩, fun _ => trivial⟩
        · intro j' req hj hreq
          rw [show Request.parse (some j) = none from by simp [Request.parse, hm]] at hreq
          exact absurd hreq (by simp)
      | bool b =>
        refine ⟨?_, ?_⟩
        · simp only [Request.parse, hm]
          exact ⟨fun _ => Or.inr ⟨j, rfl, by simp [methodStringAt, hm]⟩, fun _ => trivial⟩
        · intro j' req hj hreq
          rw [show Request.parse (some j) = none from by simp [Request.parse, hm]] at hreq
          exact absurd hreq (by simp)
      | num_int n =>
        refine ⟨?_, ?_⟩
        · simp only [Request.parse, hm]
          exact ⟨fun _ => Or.inr ⟨j, rfl, by simp [methodStringAt, hm]⟩, fun _ => trivial⟩
        · intro j' req hj hreq
          rw [show Request.parse (some j) = none from by simp [Request.parse, hm]] at hreq
          exact absurd hreq (by simp)
      | num_float q =>
        refine ⟨?_, ?_⟩
        · simp only [Request.parse, hm]
          exact ⟨fun _ => Or.inr ⟨j, rfl, by simp [methodStringAt, hm]⟩, fun _ => trivial⟩
        · intro j' req hj hreq
          rw [show Request.parse (some j) = none from by simp [Request.parse, hm]] at hreq
          exact absurd hreq (by simp)
      | arr elems =>
        refine ⟨?_, ?_⟩
        · simp only [Request.parse, hm]
          exact ⟨fun _ => Or.inr ⟨j, rfl, by simp [methodStringAt, hm]⟩, fun _ => trivial⟩
        · intro j' req hj hreq
          rw [show Request.parse (some j) = none from by simp [Request.parse, hm]] at hreq
          exact absurd hreq (by simp)
      | obj fields =>
        refine ⟨?_, ?_⟩
        · simp only [Request.parse, hm]
          exact ⟨fun _ => Or.inr ⟨j, rfl, by simp [methodStringAt, hm]⟩, fun _ => trivial⟩
        · intro j' req hj hreq
          rw [show Request.parse (some j) = none from by simp [Request.parse, hm]] at hreq
          exact absurd hreq (by simp)

/-- Witness for the amended C8: `{"method": "status", "id": 42}` parses
to id `"42"`; the out-of-range integer id 5000000000 wraps to
`"705032704"`; the float id 3.5 truncates to `"3"`; and the amended
characterization holds at the first input. -/
theorem request_parse_amended_witness :
    Request.parse (some jNumId) =
      some { method := "status", params := Json.obj [], id := some "42" } ∧
    Request.parse (some jBigNumId) =
      some { method := "status", params := Json.obj [], id := some "705032704" } ∧
    Request.parse (some jFloatId) =
      some { method := "status", params := Json.obj [], id := some "3" } ∧
    requestParseAmended (some jNumId) :=
  ⟨by rfl, by rfl,
   by
    have h32 : Json.getInt (Json.num_float (7/2)) = 3 := by
      unfold Json.getInt cppDoubleToInt32 cppTruncInt
      norm_num
    simp [Request.parse, jFloatId, Json.lookup, Json.lookup.goLookup, h32]
    rfl,
   request_parse_amended (some jNumId)⟩

end Cortexd
